import Mathlib

/-!
Verification of the session lifecycle / request-routing layer and the shared
fetch utilities of the docs-fetcher MCP server.

The embedding is shallow: each JavaScript/TypeScript function of the source is
translated into a Lean definition over explicit state.  The Express route
handlers of `src/server.ts` become pure functions from a `ServerState` (the
module-level `sessions` map plus bookkeeping for transport identities and
invocations of `transport.close()`) to a new state and an HTTP response value.
Nondeterministic inputs of the source (the session id minted by the transport
via `randomUUID`, the outcome of an upstream `fetch`) become explicit
parameters of the Lean functions.
-/

namespace DocsFetcher

/-! ## The sessions map

`src/server.ts` stores sessions in a JavaScript `Map<string, Session>` where a
`Session` holds one `McpServer` (protocol engine) and one
`StreamableHTTPServerTransport` (transport binding) created together.  Since
engine and binding are created pairwise and never shared, we identify each
(engine, binding) pair by a natural number allocated at creation time; the map
is an association list from session token to that identifier.  JavaScript
`Map` iteration/update semantics (update in place, delete the sole entry) are
mirrored by `mapSet` and `mapDelete`. -/

/-- Model of `Map.get`: the value stored under key `k`, if any. -/
def mapGet (m : List (String × Nat)) (k : String) : Option Nat :=
  match m with
  | [] => none
  | (k2, v) :: rest => if k2 = k then some v else mapGet rest k

/-- Model of `Map.has`. -/
def mapHas (m : List (String × Nat)) (k : String) : Bool :=
  (mapGet m k).isSome

/-- Model of `Map.set`: overwrite in place if the key exists, else append. -/
def mapSet (m : List (String × Nat)) (k : String) (v : Nat) : List (String × Nat) :=
  match m with
  | [] => [(k, v)]
  | (k2, v2) :: rest => if k2 = k then (k, v) :: rest else (k2, v2) :: mapSet rest k v

/-- Model of `Map.delete`: remove the entry stored under `k`. -/
def mapDelete (m : List (String × Nat)) (k : String) : List (String × Nat) :=
  m.filter (fun p => p.1 != k)

/-- State of the server module: the `sessions` map, a counter allocating fresh
(engine, binding) identifiers, and the multiset of binding identifiers on
which `transport.close()` has been invoked (one list entry per invocation). -/
structure ServerState where
  sessions : List (String × Nat)
  nextId : Nat
  closedList : List Nat
deriving DecidableEq

/-- State at module load: empty `sessions` map, nothing created or closed. -/
def initialState : ServerState := { sessions := [], nextId := 0, closedList := [] }

/-- Number of times `transport.close()` has run on binding `tid`. -/
def closeCount (st : ServerState) (tid : Nat) : Nat :=
  st.closedList.count tid

/-- JS truthiness of the `mcp-session-id` header: all three route handlers
guard with the truthiness of `sessionId` (`sessionId ? ... : null`,
`!sessionId || ...`, `sessionId && ...`), so an empty header string behaves
like an absent header. -/
def truthyHeader : Option String → Option String
  | some s => if s = "" then none else some s
  | none => none

/-- The lookup the POST handler performs:
`const session = sessionId ? sessions.get(sessionId) : null`. -/
def lookupOf (st : ServerState) (header : Option String) : Option Nat :=
  match truthyHeader header with
  | some sid => mapGet st.sessions sid
  | none => none

/-- Which transport binding executed `handleRequest` for an inbound request:
either the binding already registered in the `sessions` map, or a freshly
instantiated engine/binding pair (the `createMcpServer()` +
`new StreamableHTTPServerTransport` + `server.connect(transport)` path). -/
inductive Handled where
  | existing (tid : Nat)
  | fresh (tid : Nat)
deriving DecidableEq

/-- Observable HTTP response of a route handler: either the request was
delegated to a transport binding via `handleRequest`, or the handler itself
answered with `res.status(s).json(\x7b error: msg \x7d)`, or with
`res.status(s).end()`. -/
inductive McpResponse where
  | delegated (h : Handled)
  | errorJson (status : Nat) (errorMsg : String)
  | noContent (status : Nat)
deriving DecidableEq

/-- Whether a response is a client-side error answer produced by the router. -/
def McpResponse.isError : McpResponse → Bool
  | .errorJson _ _ => true
  | _ => false

/-- Result of the POST handler: the new module state, the response, and the
token (if any) for which the handler scheduled an idle-eviction `setTimeout`. -/
structure PostOut where
  state : ServerState
  response : McpResponse
  scheduled : Option String
deriving DecidableEq

/-- Model of `app.post("/mcp")` (src/server.ts lines 55-97).  `header` is the
`mcp-session-id` request header; `minted` is the value of
`transport.sessionId` observed after the fresh transport handled the request
(the token minted by `sessionIdGenerator`, or `none` when the transport
assigned no session id). -/
def postMcp (st : ServerState) (header : Option String) (minted : Option String) : PostOut :=
  match lookupOf st header with
  | some tid =>
    { state := st, response := .delegated (.existing tid), scheduled := none }
  | none =>
    let tid := st.nextId
    let st1 : ServerState := { st with nextId := st.nextId + 1 }
    match minted with
    | some newId =>
      { state := { st1 with sessions := mapSet st1.sessions newId tid },
        response := .delegated (.fresh tid),
        scheduled := some newId }
    | none =>
      { state := st1, response := .delegated (.fresh tid), scheduled := none }

/-- Model of `app.get("/mcp")` (src/server.ts lines 100-110). -/
def getMcp (st : ServerState) (header : Option String) : ServerState × McpResponse :=
  match truthyHeader header with
  | none => (st, .errorJson 400 "Invalid or missing session ID")
  | some sid =>
    match mapGet st.sessions sid with
    | none => (st, .errorJson 400 "Invalid or missing session ID")
    | some tid => (st, .delegated (.existing tid))

/-- Model of `app.delete("/mcp")` (src/server.ts lines 113-123). -/
def deleteMcp (st : ServerState) (header : Option String) : ServerState × McpResponse :=
  let st2 : ServerState :=
    match truthyHeader header with
    | none => st
    | some sid =>
      match mapGet st.sessions sid with
      | none => st
      | some tid =>
        { st with closedList := tid :: st.closedList,
                  sessions := mapDelete st.sessions sid }
  (st2, .noContent 204)

/-- Model of the idle-eviction `setTimeout` callback registered for token
`tok` (src/server.ts lines 86-95): if the token is still in the map, close its
transport and delete the entry; otherwise do nothing. -/
def evictionCallback (st : ServerState) (tok : String) : ServerState :=
  match mapGet st.sessions tok with
  | some tid =>
    { st with closedList := tid :: st.closedList,
              sessions := mapDelete st.sessions tok }
  | none => st

/-! ## Timed semantics

The eviction callback runs `30 * 60 * 1000` milliseconds after the `setTimeout`
call.  A `TimedState` couples the module state with the pending timers (token,
absolute fire time).  Processing an event at absolute time `now` first fires
every timer due at or before `now` (the Node event loop runs due timer
callbacks before later I/O callbacks), then runs the route handler. -/

/-- The timer delay of the eviction `setTimeout`: 30 minutes in milliseconds. -/
def IDLE_WINDOW_MS : Nat := 30 * 60 * 1000

/-- Module state plus pending eviction timers. -/
structure TimedState where
  base : ServerState
  timers : List (String × Nat)
deriving DecidableEq

/-- Fire every pending timer whose fire time is at or before `now`. -/
def fireDue (st : TimedState) (now : Nat) : TimedState :=
  { base := (st.timers.filter (fun p => decide (p.2 ≤ now))).foldl
      (fun b p => evictionCallback b p.1) st.base,
    timers := st.timers.filter (fun p => !decide (p.2 ≤ now)) }

/-- An inbound HTTP request event. -/
inductive ReqEvent where
  | post (header : Option String) (minted : Option String)
  | getReq (header : Option String)
  | del (header : Option String)
deriving DecidableEq

/-- Process one request arriving at absolute time `now`: fire due timers, then
run the route handler; a POST that registered a session schedules its eviction
timer at `now + IDLE_WINDOW_MS`.  The source never cancels or resets a timer:
`setTimeout` is called exactly once per registered session, at creation. -/
def timedStep (st : TimedState) (now : Nat) (ev : ReqEvent) : TimedState × McpResponse :=
  let st1 := fireDue st now
  match ev with
  | .post h m =>
    let out := postMcp st1.base h m
    let timers2 :=
      match out.scheduled with
      | some tok => (tok, now + IDLE_WINDOW_MS) :: st1.timers
      | none => st1.timers
    ({ base := out.state, timers := timers2 }, out.response)
  | .getReq h =>
    let r := getMcp st1.base h
    ({ st1 with base := r.1 }, r.2)
  | .del h =>
    let r := deleteMcp st1.base h
    ({ st1 with base := r.1 }, r.2)

/-- Timed state at module load. -/
def initialTimed : TimedState := { base := initialState, timers := [] }

/-! ## Fetch utilities (src/utils/fetcher.ts)

`fetchWithTimeout` either resolves to a `Response` object or rejects.  In the
embedding the outcome of the awaited fetch is an explicit parameter: a
rejection is classified by the `catch` clause of `fetchJson`/`fetchText` into
the abort case (`error instanceof Error && error.name === "AbortError"`, the
rejection raised by the 10-second abort signal) and every other failure,
carried with the message string the clause would extract
(`error.message` or `String(error)`).  Reading the body (`response.json()` or
`response.text()`) can itself reject and lands in the same `catch`, so body
reading is modelled as `Except FetchError`. -/

/-- Classification of a rejected promise by the shared `catch` clause. -/
inductive FetchError where
  | abort
  | other (msg : String)
deriving DecidableEq

/-- The fields of a resolved `Response` that `fetchJson`/`fetchText` read:
`ok`, `status`, `statusText`, and the (fallible) parsed body. -/
structure UpstreamResponse (β : Type) where
  ok : Bool
  status : Nat
  statusText : String
  body : Except FetchError β

/-- Model of the `FetchResult<T>` interface: `data: T | null` and
`error: string | null`. -/
structure FetchResult (β : Type) where
  data : Option β
  error : Option String
deriving DecidableEq

/-- Timeout constant of fetcher.ts: `const DEFAULT_TIMEOUT = 10000`. -/
def DEFAULT_TIMEOUT : Nat := 10000

/-- Model of the destructuring `const \x7b timeout = DEFAULT_TIMEOUT \x7d = options`
in `fetchWithTimeout`: the delay passed to the abort-signal `setTimeout`. -/
def fetchTimeout (optTimeout : Option Nat) : Nat :=
  optTimeout.getD DEFAULT_TIMEOUT

/-- The shared `catch` clause of `fetchJson` and `fetchText`. -/
def catchClause (β : Type) (e : FetchError) : FetchResult β :=
  match e with
  | .abort => { data := none, error := some "Request timed out" }
  | .other msg => { data := none, error := some msg }

/-- Model of `fetchJson` (fetcher.ts lines 40-62): `outcome` is the settled
promise of the awaited `fetchWithTimeout` call. -/
def fetchJson {β : Type} (outcome : Except FetchError (UpstreamResponse β)) :
    FetchResult β :=
  match outcome with
  | .error e => catchClause β e
  | .ok resp =>
    if resp.ok then
      match resp.body with
      | .ok d => { data := some d, error := none }
      | .error e => catchClause β e
    else
      { data := none,
        error := some ("HTTP " ++ toString resp.status ++ ": " ++ resp.statusText) }

/-- Model of `fetchText` (fetcher.ts lines 67-89): identical control flow with
a `string` body obtained via `response.text()`. -/
def fetchText (outcome : Except FetchError (UpstreamResponse String)) :
    FetchResult String :=
  match outcome with
  | .error e => catchClause String e
  | .ok resp =>
    if resp.ok then
      match resp.body with
      | .ok d => { data := some d, error := none }
      | .error e => catchClause String e
    else
      { data := none,
        error := some ("HTTP " ++ toString resp.status ++ ": " ++ resp.statusText) }

/-! ## Truncation (src/utils/fetcher.ts lines 113-116)

JavaScript strings are modelled as lists of characters; `text.length` is the
list length and `text.slice(0, maxLength)` with a nonnegative bound is
`List.take maxLength`. -/

/-- The marker appended to truncated text. -/
def truncMarker : List Char := "\n\n... [truncated]".toList

/-- Model of `truncate(text, maxLength = 10000)`. -/
def truncate (text : List Char) (maxLength : Nat := 10000) : List Char :=
  if text.length ≤ maxLength then text
  else text.take maxLength ++ truncMarker

/-! ## Tool descriptor names

The router composes `allTools = [...githubTools, ...npmTools, ...docsTools]`
(src/server.ts line 13).  Only the `name` field matters for the uniqueness
invariant, so the embedding is the name projection of each adapter array, in
source order. -/

/-- Names of the five descriptors of `githubTools` (src/tools/github.ts). -/
def githubToolNames : List String :=
  ["fetch_github_readme", "fetch_github_file", "get_repo_info",
   "list_repo_contents", "get_github_releases"]

/-- Names of the three descriptors of `npmTools` (src/tools/npm.ts). -/
def npmToolNames : List String :=
  ["get_npm_package", "search_npm_packages", "get_package_versions"]

/-- Modelled from the spec: the module `src/tools/docs.ts` is not present in
the source tree (only its test suite and callers are).  Its test suite pins
`docsTools` to exactly two descriptors named `fetch_url_content` and
`search_mdn`, matching the spec description of the docs adapter set. -/
def docsToolNames : List String :=
  ["fetch_url_content", "search_mdn"]

/-- Model of `allTools` (name projection, concatenation order of the source). -/
def allToolNames : List String :=
  githubToolNames ++ npmToolNames ++ docsToolNames

/-! ## Engine setup order (src/server.ts lines 16-35 and 67-78)

The observable effects of the new-session path, in program order:
`createMcpServer()` runs `server.registerTool(tool.name, ...)` for each member
of `allTools` in order, then the route handler runs `server.connect(transport)`
and finally `transport.handleRequest(req, res, req.body)`.  The straight-line
code is embedded as its event trace. -/

/-- One observable effect of the new-session path. -/
inductive SetupEvent where
  | register (name : String)
  | connect
  | handleRequest
deriving DecidableEq

/-- Trace of `createMcpServer()`: one registration per member of `allTools`. -/
def createMcpServerEvents : List SetupEvent :=
  allToolNames.map SetupEvent.register

/-- Trace of the whole new-session path of `app.post("/mcp")`. -/
def newSessionEvents : List SetupEvent :=
  createMcpServerEvents ++ [SetupEvent.connect, SetupEvent.handleRequest]

/-- Names registered strictly before the first `connect` event of a trace. -/
def registeredBeforeConnect (evs : List SetupEvent) : List String :=
  (evs.takeWhile (fun e => e != SetupEvent.connect)).filterMap
    (fun e => match e with | .register n => some n | _ => none)

/-- A `FetchResult` is structured: exactly one of `data` and `error` is
non-null. -/
def FetchResult.structured {β : Type} (r : FetchResult β) : Prop :=
  (r.data.isSome = true ∧ r.error = none) ∨ (r.data = none ∧ r.error.isSome = true)

/-! ## Helper lemmas about the map operations -/

theorem mapGet_mapSet_self (m : List (String × Nat)) (k : String) (v : Nat) :
    mapGet (mapSet m k v) k = some v := by
  induction m with
  | nil => simp [mapSet, mapGet]
  | cons p rest ih =>
    obtain ⟨k2, v2⟩ := p
    by_cases h : k2 = k
    · simp [mapSet, h, mapGet]
    · simp [mapSet, h, mapGet, ih]

theorem length_mapSet_of_absent (m : List (String × Nat)) (k : String) (v : Nat)
    (h : mapGet m k = none) : (mapSet m k v).length = m.length + 1 := by
  induction m with
  | nil => simp [mapSet]
  | cons p rest ih =>
    obtain ⟨k2, v2⟩ := p
    by_cases hk : k2 = k
    · simp [mapGet, hk] at h
    · simp [mapGet, hk] at h
      simp [mapSet, hk, ih h]

theorem mapGet_mapDelete_self (m : List (String × Nat)) (k : String) :
    mapGet (mapDelete m k) k = none := by
  induction m with
  | nil => simp [mapDelete, mapGet]
  | cons p rest ih =>
    obtain ⟨k2, v2⟩ := p
    by_cases hk : k2 = k
    · subst hk
      simpa [mapDelete, List.filter_cons] using ih
    · simp only [mapDelete, List.filter_cons] at ih ⊢
      simp [hk, bne_iff_ne, mapGet, ih]

/-! ## Claim theorems -/

/-- Claim C2: a POST whose `mcp-session-id` header is absent, or does not
resolve in the `sessions` map, is handled identically in both cases: the
handler never answers with an error for the missing or stale token, it
instantiates a fresh engine/binding pair, and that fresh binding executes
this same inbound request as its first handled request. -/
theorem post_unknown_token_equals_no_token (st : ServerState) (tok : String)
    (minted : Option String) (h : mapGet st.sessions tok = none) :
    postMcp st (some tok) minted = postMcp st none minted ∧
    (postMcp st (some tok) minted).response = .delegated (.fresh st.nextId) ∧
    (postMcp st (some tok) minted).response.isError = false := by
  have hl : lookupOf st (some tok) = none := by
    by_cases htok : tok = ""
    · simp [lookupOf, truthyHeader, htok]
    · simp [lookupOf, truthyHeader, htok, h]
  have hl2 : lookupOf st none = none := rfl
  cases minted <;>
    simp [postMcp, hl, hl2, McpResponse.isError]

/-- Witness for C2 at a concrete stale token on the empty registry. -/
theorem post_unknown_token_equals_no_token_witness :
    postMcp initialState (some "stale") (some "s1") =
      postMcp initialState none (some "s1") ∧
    (postMcp initialState (some "stale") (some "s1")).response =
      .delegated (.fresh initialState.nextId) ∧
    (postMcp initialState (some "stale") (some "s1")).response.isError = false :=
  post_unknown_token_equals_no_token initialState "stale" (some "s1") rfl

/-- Claim C3: registration is post-creation.  On a session-establishing POST
(the lookup missed), the `sessions` map gains an entry only when the fresh
transport minted a session id: with no minted id the map is unchanged (no
residue), and with a freshly minted, previously unseen id the map after the
call is exactly the old map plus one new entry keyed by that id and holding
the freshly created binding. -/
theorem registration_post_creation (st : ServerState) (header : Option String)
    (hmiss : lookupOf st header = none) :
    (postMcp st header none).state.sessions = st.sessions ∧
    (∀ id : String, mapGet st.sessions id = none →
      (postMcp st header (some id)).state.sessions = mapSet st.sessions id st.nextId ∧
      mapGet (postMcp st header (some id)).state.sessions id = some st.nextId ∧
      (postMcp st header (some id)).state.sessions.length = st.sessions.length + 1) := by
  constructor
  · simp [postMcp, hmiss]
  · intro id hid
    refine ⟨by simp [postMcp, hmiss], ?_, ?_⟩
    · simp [postMcp, hmiss, mapGet_mapSet_self]
    · simp [postMcp, hmiss, length_mapSet_of_absent st.sessions id st.nextId hid]

/-- Witness for C3: a session-establishing POST on the empty registry with a
minted token adds exactly one entry, and one with no minted token adds none. -/
theorem registration_post_creation_witness :
    (postMcp initialState none none).state.sessions = initialState.sessions ∧
    (postMcp initialState none (some "s1")).state.sessions =
      mapSet initialState.sessions "s1" initialState.nextId ∧
    mapGet (postMcp initialState none (some "s1")).state.sessions "s1" =
      some initialState.nextId ∧
    (postMcp initialState none (some "s1")).state.sessions.length =
      initialState.sessions.length + 1 :=
  ⟨(registration_post_creation initialState none rfl).1,
   (registration_post_creation initialState none rfl).2 "s1" rfl⟩

/-- Claim C4: a GET whose `mcp-session-id` header is missing (or empty, hence
falsy) or not present in the `sessions` map answers
`res.status(400).json(\x7b error: "Invalid or missing session ID" \x7d)` and
leaves the whole server state unchanged — the GET verb never creates a
session. -/
theorem get_unknown_token_client_error (st : ServerState) (header : Option String)
    (h : lookupOf st header = none) :
    getMcp st header = (st, .errorJson 400 "Invalid or missing session ID") := by
  unfold lookupOf at h
  unfold getMcp
  cases hth : truthyHeader header with
  | none => rfl
  | some sid =>
    rw [hth] at h
    have h2 : mapGet st.sessions sid = none := h
    simp [h2]

/-- Witness for C4 at a concrete unknown token on the empty registry. -/
theorem get_unknown_token_client_error_witness :
    getMcp initialState (some "unknown") =
      (initialState, .errorJson 400 "Invalid or missing session ID") :=
  get_unknown_token_client_error initialState (some "unknown") rfl

/-- Claim C5: every DELETE answers a no-body 204.  If the token resolves, the
entry leaves the `sessions` map and the close routine of its binding runs
exactly once (given the registry invariant that a registered binding has
never been closed); if the token does not resolve, the server state is
untouched — teardown is an idempotent no-op, never an error. -/
theorem delete_idempotent_teardown (st : ServerState) (header : Option String) :
    (deleteMcp st header).2 = .noContent 204 ∧
    (lookupOf st header = none → (deleteMcp st header).1 = st) ∧
    (∀ tok tid, truthyHeader header = some tok →
      mapGet st.sessions tok = some tid →
      closeCount st tid = 0 →
      mapGet (deleteMcp st header).1.sessions tok = none ∧
      closeCount (deleteMcp st header).1 tid = 1) := by
  refine ⟨rfl, ?_, ?_⟩
  · intro hmiss
    unfold lookupOf at hmiss
    unfold deleteMcp
    cases hth : truthyHeader header with
    | none => rfl
    | some sid =>
      rw [hth] at hmiss
      have h2 : mapGet st.sessions sid = none := hmiss
      simp [h2]
  · intro tok tid hth hget hcc
    have key : (deleteMcp st header).1 =
        { st with closedList := tid :: st.closedList,
                  sessions := mapDelete st.sessions tok } := by
      unfold deleteMcp
      rw [hth]
      simp [hget]
    rw [key]
    refine ⟨mapGet_mapDelete_self st.sessions tok, ?_⟩
    simp only [closeCount] at hcc ⊢
    simp [List.count_cons, hcc]

/-- Witness for C5 on a registry holding one session under token t0. -/
theorem delete_idempotent_teardown_witness :
    (deleteMcp { sessions := [("t0", 0)], nextId := 1, closedList := [] }
        (some "t0")).2 = .noContent 204 ∧
    mapGet (deleteMcp { sessions := [("t0", 0)], nextId := 1, closedList := [] }
        (some "t0")).1.sessions "t0" = none ∧
    closeCount (deleteMcp { sessions := [("t0", 0)], nextId := 1, closedList := [] }
        (some "t0")).1 0 = 1 := by
  have h := delete_idempotent_teardown
    { sessions := [("t0", 0)], nextId := 1, closedList := [] } (some "t0")
  exact ⟨h.1, h.2.2 "t0" 0 rfl rfl rfl⟩

/-- Claim C6: a POST whose `mcp-session-id` header resolves in the `sessions`
map delegates the request to the registered binding of that entry via
`handleRequest`, and the whole server state — in particular the entry count
and contents of the map — is unchanged; no eviction timer is scheduled. -/
theorem post_known_token_frame (st : ServerState) (header : Option String)
    (tid : Nat) (minted : Option String) (h : lookupOf st header = some tid) :
    postMcp st header minted =
      { state := st, response := .delegated (.existing tid), scheduled := none } := by
  simp [postMcp, h]

/-- Witness for C6 on a registry holding one session under token t0. -/
theorem post_known_token_frame_witness :
    postMcp { sessions := [("t0", 0)], nextId := 1, closedList := [] }
        (some "t0") (some "s9") =
      { state := { sessions := [("t0", 0)], nextId := 1, closedList := [] },
        response := .delegated (.existing 0), scheduled := none } :=
  post_known_token_frame
    { sessions := [("t0", 0)], nextId := 1, closedList := [] }
    (some "t0") 0 (some "s9") rfl

/-- Every result `fetchJson` returns has exactly one of `data` and `error`
non-null, for every possible outcome of the awaited fetch and body parse. -/
theorem fetchJson_structured {β : Type} (o : Except FetchError (UpstreamResponse β)) :
    (fetchJson o).structured := by
  rcases o with e | resp
  · cases e <;> simp [fetchJson, catchClause, FetchResult.structured]
  · cases hok : resp.ok
    · simp [fetchJson, hok, FetchResult.structured]
    · rcases hb : resp.body with e | d
      · cases e <;> simp [fetchJson, hok, hb, catchClause, FetchResult.structured]
      · simp [fetchJson, hok, hb, FetchResult.structured]

/-- Every result `fetchText` returns has exactly one of `data` and `error`
non-null, for every possible outcome of the awaited fetch and body read. -/
theorem fetchText_structured (o : Except FetchError (UpstreamResponse String)) :
    (fetchText o).structured := by
  rcases o with e | resp
  · cases e <;> simp [fetchText, catchClause, FetchResult.structured]
  · cases hok : resp.ok
    · simp [fetchText, hok, FetchResult.structured]
    · rcases hb : resp.body with e | d
      · cases e <;> simp [fetchText, hok, hb, catchClause, FetchResult.structured]
      · simp [fetchText, hok, hb, FetchResult.structured]

/-- Claim C7: upstream fetches through `fetchJson`/`fetchText` default to the
10-second abort timeout, and the two functions never throw: an abort-signal
rejection yields the error "Request timed out", a non-success HTTP status
yields an error naming the status, any other rejection yields its message,
and in every case exactly one of `data` and `error` is non-null. -/
theorem upstream_fetch_error_contract (β : Type)
    (oJ : Except FetchError (UpstreamResponse β))
    (oT : Except FetchError (UpstreamResponse String)) :
    fetchTimeout none = DEFAULT_TIMEOUT ∧
    DEFAULT_TIMEOUT = 10000 ∧
    (fetchJson oJ).structured ∧
    (fetchText oT).structured ∧
    (fetchJson (Except.error FetchError.abort) : FetchResult β) =
      { data := none, error := some "Request timed out" } ∧
    fetchText (Except.error FetchError.abort) =
      { data := none, error := some "Request timed out" } ∧
    (∀ msg : String, (fetchJson (Except.error (FetchError.other msg)) : FetchResult β) =
      { data := none, error := some msg }) ∧
    (∀ msg : String, fetchText (Except.error (FetchError.other msg)) =
      { data := none, error := some msg }) ∧
    (∀ resp : UpstreamResponse β, resp.ok = false →
      fetchJson (Except.ok resp) =
        { data := none,
          error := some ("HTTP " ++ toString resp.status ++ ": " ++ resp.statusText) }) ∧
    (∀ resp : UpstreamResponse String, resp.ok = false →
      fetchText (Except.ok resp) =
        { data := none,
          error := some ("HTTP " ++ toString resp.status ++ ": " ++ resp.statusText) }) := by
  refine ⟨rfl, rfl, fetchJson_structured oJ, fetchText_structured oT, rfl, rfl,
    fun msg => rfl, fun msg => rfl, ?_, ?_⟩
  · intro resp h
    simp [fetchJson, h]
  · intro resp h
    simp [fetchText, h]

/-- Witness for C7: evaluation at a timed-out JSON fetch and a 404 text
fetch. -/
theorem upstream_fetch_error_contract_witness :
    (fetchJson (Except.error FetchError.abort) : FetchResult Nat) =
      { data := none, error := some "Request timed out" } ∧
    fetchText (Except.ok
        { ok := false, status := 404, statusText := "Not Found",
          body := Except.ok "x" }) =
      { data := none, error := some "HTTP 404: Not Found" } := by
  have h := upstream_fetch_error_contract Nat (Except.error FetchError.abort)
    (Except.ok { ok := false, status := 404, statusText := "Not Found",
                 body := Except.ok "x" })
  refine ⟨h.2.2.2.2.1, ?_⟩
  have h404 := h.2.2.2.2.2.2.2.2.2
    { ok := false, status := 404, statusText := "Not Found", body := Except.ok "x" }
    rfl
  simpa using h404

/-- Claim C8: tool names are unique across the combined adapter set
`allTools = [...githubTools, ...npmTools, ...docsTools]`: no two descriptors
share a name. -/
theorem tool_names_unique : allToolNames.Nodup := by decide

/-- Claim C9: on the new-session path, `createMcpServer` registers every
descriptor of the combined `allTools` set on the fresh engine, all of them
strictly before `server.connect(transport)` runs, and the transport handles
the inbound request only after the connect — an engine reachable from the
`sessions` map is never partially configured. -/
theorem engine_configured_before_connect :
    registeredBeforeConnect newSessionEvents = allToolNames ∧
    newSessionEvents.dropWhile (fun e => e != SetupEvent.connect) =
      [SetupEvent.connect, SetupEvent.handleRequest] := by decide

/-- Claim C10: `truncate` returns the text unchanged when its length is at
most `maxLength`, and otherwise returns exactly the first `maxLength`
characters followed by the truncation marker, so the result length exceeds
`maxLength` by exactly the marker length. -/
theorem truncate_contract (text : List Char) (maxLength : Nat) :
    (text.length ≤ maxLength → truncate text maxLength = text) ∧
    (maxLength < text.length →
      truncate text maxLength = text.take maxLength ++ truncMarker ∧
      (truncate text maxLength).length = maxLength + truncMarker.length) := by
  constructor
  · intro h
    simp [truncate, h]
  · intro h
    have h2 : ¬ text.length ≤ maxLength := not_le.mpr h
    constructor
    · simp [truncate, h2]
    · simp [truncate, h2, List.length_append, List.length_take,
        Nat.min_eq_left (le_of_lt h)]

/-- Witness for C10 on a short and an over-long input. -/
theorem truncate_contract_witness :
    truncate "ab".toList 5 = "ab".toList ∧
    truncate "abcdef".toList 3 = "abcdef".toList.take 3 ++ truncMarker ∧
    (truncate "abcdef".toList 3).length = 3 + truncMarker.length :=
  ⟨(truncate_contract "ab".toList 5).1 (by decide),
   ((truncate_contract "abcdef".toList 3).2 (by decide)).1,
   ((truncate_contract "abcdef".toList 3).2 (by decide)).2⟩

/-- Claim C1 (divergence witness): the eviction `setTimeout` of
`app.post("/mcp")` is scheduled once, at session creation, and is never reset
by later activity, so a session that receives a successful request within
every 30-minute idle window is nevertheless evicted 30 minutes after
creation.  In the run below a session is created at t = 0 ms (token s), a
successful continuation POST arrives at t = 1200000 ms (20 min), yet at
t = 1800001 ms — only 10 minutes after the last successful request — the
session has been evicted: a GET with its token answers 400 and the close
routine of its binding has run once. -/
theorem idle_eviction_ignores_activity :
    (timedStep initialTimed 0 (ReqEvent.post none (some "s"))).2 =
      McpResponse.delegated (Handled.fresh 0) ∧
    (timedStep (timedStep initialTimed 0 (ReqEvent.post none (some "s"))).1
        1200000 (ReqEvent.post (some "s") none)).2 =
      McpResponse.delegated (Handled.existing 0) ∧
    (timedStep (timedStep (timedStep initialTimed 0
          (ReqEvent.post none (some "s"))).1
        1200000 (ReqEvent.post (some "s") none)).1
        1800001 (ReqEvent.getReq (some "s"))).2 =
      McpResponse.errorJson 400 "Invalid or missing session ID" ∧
    closeCount (timedStep (timedStep (timedStep initialTimed 0
          (ReqEvent.post none (some "s"))).1
        1200000 (ReqEvent.post (some "s") none)).1
        1800001 (ReqEvent.getReq (some "s"))).1.base 0 = 1 := by
  decide

end DocsFetcher
